import Mathlib

/-!
Verification of the marine-integrations instrument drivers.

The definitions below are shallow embeddings of the Python driver code:

* `pd0Sieve` embeds `WorkhorseProtocol.sieve_function`'s PD0 branch
  (mi/instrument/teledyne/workhorse_monitor_150_khz/driver.py and the
  identical 300 kHz copy): a first pass finds the two sync bytes
  `\x7f\x7f` followed by a two-byte length, a second pass re-matches
  `\x7f\x7f` followed by that many bytes from the same offset, and a
  candidate is kept only when both passes agree on the start offset.

Raw binary buffers are lists of byte values (`List Nat`, each < 256 in
practice; the code reads whatever value is stored).
-/

/-- Byte-level test for the PD0 synchronisation marker `\x7f\x7f` at
offset `i` (regex `\x7f\x7f` with `re.DOTALL`). Out-of-range reads
default to 0, which is never `0x7f`, so no match can start past the
end of the buffer. -/
def syncAt (raw : List Nat) (i : Nat) : Bool :=
  (raw.getD i 0 == 0x7f) && (raw.getD (i + 1) 0 == 0x7f)

/-- Start offsets of the non-overlapping matches of the first-pass
regex `\x7f\x7f(..)` (two sync bytes plus a two-byte length field),
scanning left to right from offset `i` exactly as `re.finditer` does:
on a match the scan resumes after the four matched bytes, otherwise at
the next offset. The fuel argument only bounds the recursion; with
fuel `raw.length` it never runs out before the scan is done. -/
def outerStartsAux (raw : List Nat) : Nat → Nat → List Nat
  | 0, _ => []
  | fuel + 1, i =>
    if i + 4 ≤ raw.length then
      if syncAt raw i then i :: outerStartsAux raw fuel (i + 4)
      else outerStartsAux raw fuel (i + 1)
    else []

/-- All first-pass match start offsets of `\x7f\x7f(..)` in the buffer. -/
def outerStarts (raw : List Nat) : List Nat :=
  outerStartsAux raw raw.length 0

/-- Start offsets of the non-overlapping matches of the second-pass
regex `\x7f\x7f(.{L})` (two sync bytes plus `L` arbitrary bytes,
`re.DOTALL`), scanning left to right from offset `i` as `re.finditer`
does. -/
def trueMatchesAux (raw : List Nat) (L : Nat) : Nat → Nat → List Nat
  | 0, _ => []
  | fuel + 1, i =>
    if i + 2 + L ≤ raw.length then
      if syncAt raw i then i :: trueMatchesAux raw L fuel (i + 2 + L)
      else trueMatchesAux raw L fuel (i + 1)
    else []

/-- All second-pass match start offsets of `\x7f\x7f(.{L})` from offset `i`. -/
def trueMatches (raw : List Nat) (L : Nat) (i : Nat) : List Nat :=
  trueMatchesAux raw L raw.length i

/-- The PD0 branch of `WorkhorseProtocol.sieve_function`: for every
first-pass match at `p`, read the little-endian 16-bit length `L` from
the two bytes after the sync marker (`unpack("H", ...)`), re-run the
second-pass regex from `p`, and report `(start, end)` of every
second-pass match whose start equals `p`.  A reported span therefore
covers the 2 sync bytes plus the next `L` bytes. -/
def pd0Sieve (raw : List Nat) : List (Nat × Nat) :=
  (outerStarts raw).flatMap (fun p =>
    let L := raw.getD (p + 2) 0 + 256 * raw.getD (p + 3) 0
    (((trueMatches raw L p).filter (fun q => q == p)).map (fun q => (q, q + 2 + L))))

/-- The regex character class `[0-9A-Fa-f]`. -/
def isHexDigitChar (c : Char) : Bool :=
  ('0' ≤ c && c ≤ '9') || ('A' ≤ c && c ≤ 'F') || ('a' ≤ c && c ≤ 'f')

/-- Value of one hex digit, as `int(c, 16)` computes it for characters
accepted by `[0-9A-Fa-f]`. -/
def hexDigitVal (c : Char) : Nat :=
  if '0' ≤ c && c ≤ '9' then c.toNat - 48
  else if 'A' ≤ c && c ≤ 'F' then c.toNat - 55
  else if 'a' ≤ c && c ≤ 'f' then c.toNat - 87
  else 0

/-- Python's `int(s, 16)` on a string of hex digits. -/
def hexStrVal (s : List Char) : Nat :=
  s.foldl (fun a c => 16 * a + hexDigitVal c) 0

/-- One uppercase hex digit, as Python's `format(v, 'X')` produces. -/
def toHexDigit (n : Nat) : Char :=
  if n < 10 then Char.ofNat (48 + n) else Char.ofNat (55 + n)

/-- Hex digits of `n` (most significant first, empty for 0), the core of
`format(v, 'X')`. -/
def natToHexCore (n : Nat) : List Char :=
  if h : n = 0 then []
  else natToHexCore (n / 16) ++ [toHexDigit (n % 16)]
  termination_by n
  decreasing_by exact Nat.div_lt_self (Nat.pos_of_ne_zero h) (by omega)

/-- Python's `format(v, 'X')`: uppercase hex digits, `"0"` for zero. -/
def natToHex (n : Nat) : List Char :=
  if n = 0 then ['0'] else natToHexCore n

/-- Python's `str.zfill`: left-pad with `'0'` to length `w`. -/
def zfill (w : Nat) (s : List Char) : List Char :=
  List.replicate (w - s.length) '0' ++ s

/-- Modelled from the spec: `SamiProtocol._int_to_hexstring` (defined in
the sunburst base driver `mi/instrument/sunburst/driver.py`, which is not
part of this source tree) encodes an integer parameter value as an
uppercase hex string zero-filled to the field's declared character width
(the spec: "encode function (_int_to_hexstring of v at the declared
width)"). -/
def intToHexString (v w : Nat) : List Char :=
  zfill w (natToHex v)

/-- Modelled from the spec: the SAMI drivers' `NEWLINE` record terminator
(imported from `mi/instrument/sunburst/driver.py`, not in this source
tree); per the driver docstrings the records are "terminated with a
`\r`". -/
def NEWLINE : Char := '\r'

/-- Consume one fixed-width all-hex capture group per listed width,
returning the captured groups and the remaining input, or `none` when
the input does not match. -/
def takeGroups : List Nat → List Char → Option (List (List Char) × List Char)
  | [], s => some ([], s)
  | w :: ws, s =>
    let g := s.take w
    if g.length = w && g.all isHexDigitChar then
      match takeGroups ws (s.drop w) with
      | some (gs, r) => some (g :: gs, r)
      | none => none
    else none

/-- The capture-group widths of `SAMI_SAMPLE_REGEX`:
id, length, type, time, 14 light measurements, battery, thermistor,
checksum. -/
def samiSampleGroupWidths : List Nat := [2, 2, 2, 8, 56, 4, 4, 2]

/-- Match-at-start of `SAMI_SAMPLE_REGEX_MATCHER` (a literal `*`, the
eight fixed-width hex groups, with the record-type group restricted to
`04|05`, then `NEWLINE`; trailing characters are allowed as `re.match`
only anchors the start), returning the captured groups. -/
def samiSampleMatch (s : List Char) : Option (List (List Char)) :=
  match s with
  | '*' :: rest =>
    match takeGroups samiSampleGroupWidths rest with
    | some (gs, r) =>
      if (gs.getD 2 [] == ['0', '4'] || gs.getD 2 [] == ['0', '5'])
          && r.headD ' ' == NEWLINE then
        some gs
      else none
    | none => none
  | _ => none

/-- The capture-group widths of `CONFIGURATION_REGEX`: launch time,
start time, stop time, mode bits, five (interval, driver type, pointer)
triplets, global config bits, the ten one-byte PCO2 settings, and the
414-character padding group. -/
def configGroupWidths : List Nat :=
  [8, 8, 8, 2, 6, 2, 2, 6, 2, 2, 6, 2, 2, 6, 2, 2, 6, 2, 2, 2,
   2, 2, 2, 2, 2, 2, 2, 2, 2, 2, 414]

/-- Match-at-start of `CONFIGURATION_REGEX_MATCHER` (31 fixed-width hex
groups followed by `NEWLINE`), returning the captured groups. -/
def configMatch (s : List Char) : Option (List (List Char)) :=
  match takeGroups configGroupWidths s with
  | some (gs, r) => if r.headD ' ' == NEWLINE then some gs else none
  | none => none

/-- A decoded particle field value: `int(..., 16)` of a group, a
boolean bit flag, or the list of 14 light-measurement integers. -/
inductive PVal where
  | int (n : Nat)
  | flag (b : Bool)
  | intList (l : List Nat)
  deriving DecidableEq

/-- `Pco2wSamiSampleDataParticleKey` (the eight declared particle keys,
in declaration order). -/
inductive SKey where
  | unique_id
  | record_length
  | record_type
  | record_time
  | light_measurements
  | voltage_battery
  | thermistor_raw
  | checksum
  deriving DecidableEq

/-- The `particle_keys` list of
`Pco2wSamiSampleDataParticle._build_parsed_values`. -/
def pco2wSamiSampleKeys : List SKey :=
  [SKey.unique_id, SKey.record_length, SKey.record_type, SKey.record_time,
   SKey.light_measurements, SKey.voltage_battery, SKey.thermistor_raw,
   SKey.checksum]

/-- The light-measurement list comprehension
`[int(light[i:i+4], 16) for i in range(0, len(light), 4)]`:
split the group into 4-character slices and hex-decode each. -/
def parseLight (l : List Char) : List Nat :=
  if l = [] then []
  else hexStrVal (l.take 4) :: parseLight (l.drop 4)
  termination_by l.length
  decreasing_by
    rename_i h
    have : l.length ≠ 0 := fun he => h (List.eq_nil_of_length_eq_zero he)
    simp [List.length_drop]
    omega

/-- The decode loop of `Pco2wSamiSampleDataParticle._build_parsed_values`:
walk the particle keys with the running group index, decoding the light
group into a list and every other group with `int(..., 16)`. -/
def samiSampleLoop (g : Nat → List Char) : List SKey → Nat → List (SKey × PVal)
  | [], _ => []
  | k :: ks, grp =>
    if k ∈ [SKey.light_measurements] then
      (k, PVal.intList (parseLight (g grp))) :: samiSampleLoop g ks (grp + 1)
    else
      (k, PVal.int (hexStrVal (g grp))) :: samiSampleLoop g ks (grp + 1)

/-- `Pco2wSamiSampleDataParticle._build_parsed_values`: raise
`SampleException` carrying the raw data when the SAMI sample regex does
not match, else build the keyed result list (group `i` of a Python match
object is `gs.getD (i-1)` here, as Python group numbering starts at 1). -/
def pco2wSamiSampleBuild (s : List Char) : Except (List Char) (List (SKey × PVal)) :=
  match samiSampleMatch s with
  | none => Except.error s
  | some gs => Except.ok (samiSampleLoop (fun i => gs.getD (i - 1) []) pco2wSamiSampleKeys 1)

/-- `Pco2wConfigurationDataParticleKey` (base keys from
`SamiConfigDataParticleKey` plus the PCO2W-specific ones), one
constructor per declared particle key. -/
inductive CKey where
  | launch_time
  | start_time_offset
  | recording_time
  | pmi_sample_schedule
  | sami_sample_schedule
  | slot1_follows_sami_schedule
  | slot1_independent_schedule
  | slot2_follows_sami_schedule
  | slot2_independent_schedule
  | slot3_follows_sami_schedule
  | slot3_independent_schedule
  | timer_interval_sami
  | driver_id_sami
  | parameter_pointer_sami
  | timer_interval_device1
  | driver_id_device1
  | parameter_pointer_device1
  | timer_interval_device2
  | driver_id_device2
  | parameter_pointer_device2
  | timer_interval_device3
  | driver_id_device3
  | parameter_pointer_device3
  | timer_interval_prestart
  | driver_id_prestart
  | parameter_pointer_prestart
  | use_baud_rate_57600
  | send_record_type
  | send_live_records
  | extend_global_config
  | pump_pulse
  | pump_duration
  | samples_per_measurement
  | cycles_between_blanks
  | number_reagent_cycles
  | number_blank_cycles
  | flush_pump_interval
  | disable_start_blank_flush
  | measure_after_pump_pulse
  | number_extra_pump_cycles
  | external_pump_settings
  deriving DecidableEq

/-- The first membership list tested in the decode loop: the eight keys
decoded bit-by-bit from the one-byte mode-bits value (group 4). -/
def configModeKeys : List CKey :=
  [CKey.pmi_sample_schedule, CKey.sami_sample_schedule,
   CKey.slot1_follows_sami_schedule, CKey.slot1_independent_schedule,
   CKey.slot2_follows_sami_schedule, CKey.slot2_independent_schedule,
   CKey.slot3_follows_sami_schedule, CKey.slot3_independent_schedule]

/-- The second membership list: the four keys decoded bit-by-bit from
the global-configuration byte (group 20). -/
def configGlobalKeys : List CKey :=
  [CKey.use_baud_rate_57600, CKey.send_record_type,
   CKey.send_live_records, CKey.extend_global_config]

/-- The third membership list: the two keys decoded bit-by-bit from the
PCO2 bit-switches byte (group 28). -/
def configSwitchKeys : List CKey :=
  [CKey.disable_start_blank_flush, CKey.measure_after_pump_pulse]

/-- The `particle_keys` list of
`Pco2wConfigurationDataParticle._build_parsed_values`, in declaration
order. -/
def pco2wConfigKeys : List CKey :=
  [CKey.launch_time, CKey.start_time_offset, CKey.recording_time,
   CKey.pmi_sample_schedule, CKey.sami_sample_schedule,
   CKey.slot1_follows_sami_schedule, CKey.slot1_independent_schedule,
   CKey.slot2_follows_sami_schedule, CKey.slot2_independent_schedule,
   CKey.slot3_follows_sami_schedule, CKey.slot3_independent_schedule,
   CKey.timer_interval_sami, CKey.driver_id_sami, CKey.parameter_pointer_sami,
   CKey.timer_interval_device1, CKey.driver_id_device1, CKey.parameter_pointer_device1,
   CKey.timer_interval_device2, CKey.driver_id_device2, CKey.parameter_pointer_device2,
   CKey.timer_interval_device3, CKey.driver_id_device3, CKey.parameter_pointer_device3,
   CKey.timer_interval_prestart, CKey.driver_id_prestart, CKey.parameter_pointer_prestart,
   CKey.use_baud_rate_57600, CKey.send_record_type, CKey.send_live_records,
   CKey.extend_global_config,
   CKey.pump_pulse, CKey.pump_duration, CKey.samples_per_measurement,
   CKey.cycles_between_blanks, CKey.number_reagent_cycles, CKey.number_blank_cycles,
   CKey.flush_pump_interval, CKey.disable_start_blank_flush,
   CKey.measure_after_pump_pulse, CKey.number_extra_pump_cycles,
   CKey.external_pump_settings]

/-- The decode loop of
`Pco2wConfigurationDataParticle._build_parsed_values`, carrying the
running group index `grp` and the three running bit indices `mo`
(mode bits, group 4), `gl` (global-configuration bits, group 20; after
bit 2 the index jumps to 7, skipping the reserved bits 3–6) and `sa`
(bit switches, group 28). A bit flag is `bool(value & (1 << index))`;
every other group decodes with `int(..., 16)`. -/
def configLoop (g : Nat → List Char) :
    List CKey → Nat → Nat → Nat → Nat → List (CKey × PVal)
  | [], _, _, _, _ => []
  | k :: ks, grp, mo, gl, sa =>
    if k ∈ configModeKeys then
      (k, PVal.flag ((hexStrVal (g 4) &&& (1 <<< mo)) != 0)) ::
        configLoop g ks 5 (mo + 1) gl sa
    else if k ∈ configGlobalKeys then
      (k, PVal.flag ((hexStrVal (g 20) &&& (1 <<< gl)) != 0)) ::
        configLoop g ks 21 mo (if gl + 1 = 3 then 7 else gl + 1) sa
    else if k ∈ configSwitchKeys then
      (k, PVal.flag ((hexStrVal (g 28) &&& (1 <<< sa)) != 0)) ::
        configLoop g ks 29 mo gl (sa + 1)
    else
      (k, PVal.int (hexStrVal (g grp))) :: configLoop g ks (grp + 1) mo gl sa

/-- `Pco2wConfigurationDataParticle._build_parsed_values`: raise
`SampleException` carrying the raw data when `CONFIGURATION_REGEX` does
not match, else run the decode loop with group index 1 and all bit
indices 0 (group `i` of a Python match object is `gs.getD (i-1)` here). -/
def pco2wConfigBuild (s : List Char) : Except (List Char) (List (CKey × PVal)) :=
  match configMatch s with
  | none => Except.error s
  | some gs => Except.ok (configLoop (fun i => gs.getD (i - 1) []) pco2wConfigKeys 1 0 0 0)

/-- The literal configuration string from the driver docstring and
`VALID_CONFIG_STRING`: the 98 significant hex characters, zero padding,
then trailing `F` padding up to the declared 512-character record
length, terminated by `NEWLINE`. -/
def configLitChars : List Char :=
  "CEE90B0002C7EA0001E133800A000E100402000E10010B000000000D000000000D000000000D071020FF54181C01003814".data
    ++ List.replicate 130 '0' ++ List.replicate 284 'F' ++ [NEWLINE]

/-- Convenience view of the decoded configuration particle for the
literal string: the value stored under a given key, if any. -/
def configLitValue (k : CKey) : Option PVal :=
  (pco2wConfigBuild configLitChars).toOption.bind (fun r => r.lookup k)

/-- `ParameterDictVisibility` (mi.core): only `READ_ONLY` is used by
this driver; `READ_WRITE` stands for every other visibility. -/
inductive PVisibility where
  | READ_ONLY
  | READ_WRITE
  deriving DecidableEq

/-- One `self._param_dict.add(...)` registration of
`Protocol._build_param_dict` of the SAMI2-PCO2 driver: the parameter
name (the `Parameter` enum member), the 1-based `CONFIGURATION_REGEX`
capture group its decode lambda reads with `int(match.group(g), 16)`,
the hex-character width its encode lambda passes to
`_int_to_hexstring`, and the registration's `startup_param`,
`direct_access`, `visibility` and `default_value` keyword arguments. -/
structure ParamEntry where
  name : String
  group : Nat
  width : Nat
  startupParam : Bool
  directAccess : Bool
  visibility : PVisibility
  defaultValue : Nat
  deriving DecidableEq

/-- The thirty registrations of `Protocol._build_param_dict`, in source
order. -/
def pco2wParamDict : List ParamEntry :=
  [⟨"LAUNCH_TIME", 1, 8, false, true, PVisibility.READ_ONLY, 0x00000000⟩,
   ⟨"START_TIME_FROM_LAUNCH", 2, 8, false, true, PVisibility.READ_ONLY, 0x02C7EA00⟩,
   ⟨"STOP_TIME_FROM_START", 3, 8, false, true, PVisibility.READ_ONLY, 0x01E13380⟩,
   ⟨"MODE_BITS", 4, 2, false, true, PVisibility.READ_ONLY, 0x0A⟩,
   ⟨"SAMI_SAMPLE_INTERVAL", 5, 6, false, true, PVisibility.READ_ONLY, 0x000E10⟩,
   ⟨"SAMI_DRIVER_VERSION", 6, 2, false, true, PVisibility.READ_ONLY, 0x04⟩,
   ⟨"SAMI_PARAMS_POINTER", 7, 2, false, true, PVisibility.READ_ONLY, 0x02⟩,
   ⟨"DEVICE1_SAMPLE_INTERVAL", 8, 6, false, true, PVisibility.READ_ONLY, 0x000E10⟩,
   ⟨"DEVICE1_DRIVER_VERSION", 9, 2, false, true, PVisibility.READ_ONLY, 0x01⟩,
   ⟨"DEVICE1_PARAMS_POINTER", 10, 2, false, true, PVisibility.READ_ONLY, 0x0B⟩,
   ⟨"DEVICE2_SAMPLE_INTERVAL", 11, 6, false, true, PVisibility.READ_ONLY, 0x000000⟩,
   ⟨"DEVICE2_DRIVER_VERSION", 12, 2, false, true, PVisibility.READ_ONLY, 0x00⟩,
   ⟨"DEVICE2_PARAMS_POINTER", 13, 2, false, true, PVisibility.READ_ONLY, 0x0D⟩,
   ⟨"DEVICE3_SAMPLE_INTERVAL", 14, 6, false, true, PVisibility.READ_ONLY, 0x000000⟩,
   ⟨"DEVICE3_DRIVER_VERSION", 15, 2, false, true, PVisibility.READ_ONLY, 0x00⟩,
   ⟨"DEVICE3_PARAMS_POINTER", 16, 2, false, true, PVisibility.READ_ONLY, 0x0D⟩,
   ⟨"PRESTART_SAMPLE_INTERVAL", 17, 6, false, true, PVisibility.READ_ONLY, 0x000000⟩,
   ⟨"PRESTART_DRIVER_VERSION", 18, 2, false, true, PVisibility.READ_ONLY, 0x00⟩,
   ⟨"PRESTART_PARAMS_POINTER", 19, 2, false, true, PVisibility.READ_ONLY, 0x0D⟩,
   ⟨"GLOBAL_CONFIGURATION", 20, 2, false, true, PVisibility.READ_ONLY, 0x00⟩,
   ⟨"PUMP_PULSE", 21, 2, false, true, PVisibility.READ_ONLY, 0x10⟩,
   ⟨"PUMP_DURATION", 22, 2, false, true, PVisibility.READ_ONLY, 0x20⟩,
   ⟨"SAMPLES_PER_MEASUREMENT", 23, 2, false, true, PVisibility.READ_ONLY, 0xFF⟩,
   ⟨"CYCLES_BETWEEN_BLANKS", 24, 2, false, true, PVisibility.READ_ONLY, 0xA8⟩,
   ⟨"NUMBER_REAGENT_CYCLES", 25, 2, false, true, PVisibility.READ_ONLY, 0x18⟩,
   ⟨"NUMBER_BLANK_CYCLES", 26, 2, false, true, PVisibility.READ_ONLY, 0x1C⟩,
   ⟨"FLUSH_PUMP_INTERVAL", 27, 2, false, true, PVisibility.READ_ONLY, 0x01⟩,
   ⟨"BIT_SWITCHES", 28, 2, false, true, PVisibility.READ_ONLY, 0x00⟩,
   ⟨"NUMBER_EXTRA_PUMP_CYCLES", 29, 2, false, true, PVisibility.READ_ONLY, 0x38⟩,
   ⟨"EXTERNAL_PUMP_SETTINGS", 30, 2, false, true, PVisibility.READ_ONLY, 0x14⟩]

/-- The error taxonomy of the parameter dictionary's set path. -/
inductive SetCmdError where
  | unknownParameter
  | readOnlyParameter
  deriving DecidableEq

/-- Modelled from the spec: `encode_set(name, value)` of the parameter
dictionary (`ProtocolParameterDict` lives in mi.core, outside this
source tree) "fails with `ReadOnlyParameter` if the descriptor's
visibility is read-only; fails with `UnknownParameter` if `name` is not
registered; otherwise calls the descriptor's encode function". -/
def encode_set (dict : List ParamEntry) (name : String) (v : Nat) :
    Except SetCmdError (List Char) :=
  match dict.find? (fun e => e.name == name) with
  | none => Except.error SetCmdError.unknownParameter
  | some e =>
    if e.visibility = PVisibility.READ_ONLY then Except.error SetCmdError.readOnlyParameter
    else Except.ok (intToHexString v e.width)

/-- `ProtocolState` of the sunburst drivers (base states plus the two
sampling sub-states). -/
inductive SamiState where
  | UNKNOWN
  | COMMAND
  | AUTOSAMPLE
  | DIRECT_ACCESS
  | SCHEDULED_SAMPLE
  | POLLED_SAMPLE
  deriving DecidableEq

/-- The two protocol events handled by the sampling sub-states. -/
inductive SamiEvent where
  | SUCCESS
  | TIMEOUT
  deriving DecidableEq

/-- `Protocol._handler_sample_success` of the SAMI2-PCO2 driver:
returns `(next_state, result) = (None, None)`. -/
def handler_sample_success : Option SamiState × Option Unit := (none, none)

/-- `Protocol._handler_sample_timeout` of the SAMI2-PCO2 driver:
returns `(next_state, result) = (None, None)`. -/
def handler_sample_timeout : Option SamiState × Option Unit := (none, none)

/-- The four `add_handler` registrations made in `Protocol.__init__`
for the sampling sub-states; `SUCCESS`/`TIMEOUT` handlers for other
states are not registered by this driver. -/
def samiSampleHandlers : SamiState → SamiEvent → Option (Option SamiState × Option Unit)
  | SamiState.SCHEDULED_SAMPLE, SamiEvent.SUCCESS => some handler_sample_success
  | SamiState.SCHEDULED_SAMPLE, SamiEvent.TIMEOUT => some handler_sample_timeout
  | SamiState.POLLED_SAMPLE, SamiEvent.SUCCESS => some handler_sample_success
  | SamiState.POLLED_SAMPLE, SamiEvent.TIMEOUT => some handler_sample_timeout
  | _, _ => none

/-- Modelled from the spec: `on_event` of the protocol state machine
(`InstrumentFSM`, mi.core, outside this source tree) "looks up
`(current_state, event)`; if absent, fails with `UnhandledEvent`
(`none` here); otherwise invokes the handler, then if `next_state` is
non-null, atomically updates the current state". Returns the state the
machine holds after processing the event. -/
def sami_on_event (st : SamiState) (ev : SamiEvent) : Option SamiState :=
  match samiSampleHandlers st ev with
  | none => none
  | some (ns, _) => some (ns.getD st)

/-- `TeledyneProtocolState` as used by the Workhorse drivers. -/
inductive WState where
  | UNKNOWN
  | COMMAND
  | AUTOSAMPLE
  | DIRECT_ACCESS
  deriving DecidableEq

/-- The protocol event raised by `_got_chunk`'s recovery path. -/
inductive WEvent where
  | RECOVER_AUTOSAMPLE
  deriving DecidableEq

/-- The three particle kinds `_got_chunk` can extract. -/
inductive WParticle where
  | compassCalibration
  | pd0
  | sysConfig
  deriving DecidableEq

/-- Modelled from the spec: the Workhorse FSM's handler for
`RECOVER_AUTOSAMPLE` (registered in the teledyne base driver, outside
this source tree) transitions `COMMAND` into `AUTOSAMPLE` — the spec:
the engine "injects a synthetic `RECOVER_AUTOSAMPLE` event" so "the
driver must follow reality rather than insist on its last commanded
state". -/
def wOnEvent : WState → WEvent → WState
  | WState.COMMAND, WEvent.RECOVER_AUTOSAMPLE => WState.AUTOSAMPLE
  | st, _ => st

/-- What one `_got_chunk` call did: the protocol state afterwards, the
events it raised on the FSM, and the particles extracted from the
chunk, in extraction order. -/
structure GotChunkResult where
  finalState : WState
  raised : List WEvent
  extracted : List WParticle
  deriving DecidableEq

/-- `WorkhorseProtocol._got_chunk` of the 150 kHz driver.
`matchCal`, `matchPD0` and `matchCfg` abstract whether
`_extract_sample` succeeds for the compass-calibration, PD0 and
system-configuration matchers on this chunk (`_extract_sample` is
truthy exactly when its regex matches the chunk); `disable` is
`self.disable_autosample_recover` and `st` the FSM's current state.
The method tries compass calibration, then PD0 — and when
`disable_autosample_recover != True` it raises `RECOVER_AUTOSAMPLE`
if the state is `COMMAND` and then returns — and only otherwise falls
through to the system-configuration extraction. -/
def got_chunk_150 (matchCal matchPD0 matchCfg : Bool) (disable : Bool)
    (st : WState) : GotChunkResult :=
  let ext1 : List WParticle := if matchCal then [WParticle.compassCalibration] else []
  if matchPD0 then
    let ext2 := ext1 ++ [WParticle.pd0]
    if disable != true then
      if st = WState.COMMAND then
        { finalState := wOnEvent st WEvent.RECOVER_AUTOSAMPLE,
          raised := [WEvent.RECOVER_AUTOSAMPLE],
          extracted := ext2 }
      else
        { finalState := st, raised := [], extracted := ext2 }
    else
      { finalState := st, raised := [],
        extracted := ext2 ++ (if matchCfg then [WParticle.sysConfig] else []) }
  else
    { finalState := st, raised := [],
      extracted := ext1 ++ (if matchCfg then [WParticle.sysConfig] else []) }

/-- Modelled from the spec: the Chunker's overlap tie-break — "the
earliest-starting, then widest, match wins" (the `StringChunker` both
drivers construct over their pooled `sieve_function` lives in mi.core,
outside this source tree). `chunkBetter a b` keeps the better of two
candidate spans. -/
def chunkBetter (a b : Nat × Nat) : Nat × Nat :=
  if b.1 < a.1 ∨ (b.1 = a.1 ∧ a.2 < b.2) then b else a

/-- Modelled from the spec: "`next_chunk()` returns the
earliest-starting unconsumed chunk found by any recognizer" —
the selected candidate among the pending spans. -/
def earliestChunk : List (Nat × Nat) → Option (Nat × Nat)
  | [] => none
  | c :: rest => some (rest.foldl chunkBetter c)

/-- Two candidate spans overlap (intersect as half-open intervals). -/
def overlapsSpan (a b : Nat × Nat) : Bool :=
  (a.1 < b.2) && (b.1 < a.2)

/-- Modelled from the spec: draining the Chunker — each `next_chunk()`
call yields the earliest-starting (then widest) pending candidate, and
the consumed chunk together with any candidates overlapping it is
discarded ("the other is discarded"). The fuel only bounds the loop;
each step removes at least the consumed candidate, so fuel
`cands.length` never runs out early. -/
def chunkStreamAux : Nat → List (Nat × Nat) → List (Nat × Nat)
  | 0, _ => []
  | fuel + 1, cands =>
    match earliestChunk cands with
    | none => []
    | some c =>
      c :: chunkStreamAux fuel
        (cands.filter (fun d => !(d == c) && !(overlapsSpan c d)))

/-- The full sequence of chunks yielded by successive `next_chunk()`
calls over one pooled candidate list. -/
def chunkStream (cands : List (Nat × Nat)) : List (Nat × Nat) :=
  chunkStreamAux cands.length cands

set_option maxRecDepth 100000

theorem outerStartsAux_eq_nil (raw : List Nat)
    (h : ∀ j, 4 ≤ j → syncAt raw j = false) :
    ∀ fuel i, 4 ≤ i → outerStartsAux raw fuel i = [] := by
  intro fuel
  induction fuel with
  | zero => intro i _; rfl
  | succ n ih =>
    intro i hi
    simp only [outerStartsAux]
    by_cases hc : i + 4 ≤ raw.length
    · rw [if_pos hc, h i hi, if_neg (by simp)]
      exact ih (i + 1) (by omega)
    · rw [if_neg hc]

theorem trueMatchesAux_ge (raw : List Nat) (L : Nat) :
    ∀ fuel i q, q ∈ trueMatchesAux raw L fuel i → i ≤ q := by
  intro fuel
  induction fuel with
  | zero => intro i q hq; simp [trueMatchesAux] at hq
  | succ n ih =>
    intro i q hq
    simp only [trueMatchesAux] at hq
    by_cases hc : i + 2 + L ≤ raw.length
    · rw [if_pos hc] at hq
      by_cases hs : syncAt raw i
      · rw [if_pos hs] at hq
        rcases List.mem_cons.mp hq with h | h
        · omega
        · have := ih (i + 2 + L) q h; omega
      · rw [if_neg hs] at hq
        have := ih (i + 1) q hq; omega
    · rw [if_neg hc] at hq
      simp at hq

theorem outerStartsAux_succ (raw : List Nat) (fuel i : Nat) :
    outerStartsAux raw (fuel + 1) i =
      if i + 4 ≤ raw.length then
        if syncAt raw i then i :: outerStartsAux raw fuel (i + 4)
        else outerStartsAux raw fuel (i + 1)
      else [] := rfl

theorem trueMatchesAux_succ (raw : List Nat) (L fuel i : Nat) :
    trueMatchesAux raw L (fuel + 1) i =
      if i + 2 + L ≤ raw.length then
        if syncAt raw i then i :: trueMatchesAux raw L fuel (i + 2 + L)
        else trueMatchesAux raw L fuel (i + 1)
      else [] := rfl

theorem getD_cons_four (a b c d x j : Nat) (rest : List Nat) :
    (a :: b :: c :: d :: rest).getD (4 + j) x = rest.getD j x := by
  have h : 4 + j = (((j + 1) + 1) + 1) + 1 := by omega
  rw [h, List.getD_cons_succ, List.getD_cons_succ, List.getD_cons_succ, List.getD_cons_succ]

/-- C1 (amended): for a buffer consisting of the two sync bytes, a 2-byte
little-endian length field `L = l0 + 256*l1` and then a tail containing no
further sync marker, the PD0 sieve reports exactly one candidate spanning
`2 + L` bytes from the sync marker (the length `L` is counted from just
after the sync marker, so it covers the length field itself) as soon as at
least `L` bytes follow the sync marker — equivalently at least `L - 2`
payload bytes follow the length field; with fewer bytes than that no
candidate is reported. -/
theorem c1_pd0_framing (l0 l1 : Nat) (rest : List Nat)
    (hsync : ∀ j, j < rest.length → syncAt rest j = false) :
    (2 + (l0 + 256 * l1) ≤ 4 + rest.length →
      pd0Sieve (0x7f :: 0x7f :: l0 :: l1 :: rest) = [(0, 2 + (l0 + 256 * l1))]) ∧
    (4 + rest.length < 2 + (l0 + 256 * l1) →
      pd0Sieve (0x7f :: 0x7f :: l0 :: l1 :: rest) = []) := by
  set raw := 0x7f :: 0x7f :: l0 :: l1 :: rest with hraw
  have hraw_len : raw.length = rest.length + 4 := by simp [hraw]
  have h4 : ∀ j x, raw.getD (4 + j) x = rest.getD j x := by
    intro j x; rw [hraw]; exact getD_cons_four _ _ _ _ _ _ _
  have hs4 : ∀ j, 4 ≤ j → syncAt raw j = false := by
    intro j hj
    obtain ⟨j', rfl⟩ : ∃ j', j = 4 + j' := ⟨j - 4, by omega⟩
    unfold syncAt
    rw [h4 j', show 4 + j' + 1 = 4 + (j' + 1) by omega, h4 (j' + 1)]
    by_cases hlt : j' < rest.length
    · simpa [syncAt] using hsync j' hlt
    · have hzero : rest.getD j' 0 = 0 := List.getD_eq_default _ _ (by omega)
      rw [hzero]
      rfl
  have hs0 : syncAt raw 0 = true := by rw [hraw]; rfl
  have hout : outerStarts raw = [0] := by
    unfold outerStarts
    rw [hraw_len]
    show outerStartsAux raw (rest.length + 3 + 1) 0 = [0]
    rw [outerStartsAux_succ]
    rw [if_pos (by rw [hraw_len]; omega), if_pos hs0]
    rw [outerStartsAux_eq_nil raw hs4 (rest.length + 3) (0 + 4) (by omega)]
  constructor
  · intro h
    unfold pd0Sieve
    rw [hout]
    show ((trueMatches raw (raw.getD (0 + 2) 0 + 256 * raw.getD (0 + 3) 0) 0).filter
        (fun q => q == 0)).map
        (fun q => (q, q + 2 + (raw.getD (0 + 2) 0 + 256 * raw.getD (0 + 3) 0))) ++ [] =
      [(0, 2 + (l0 + 256 * l1))]
    have hg2 : raw.getD (0 + 2) 0 = l0 := by rw [hraw]; rfl
    have hg3 : raw.getD (0 + 3) 0 = l1 := by rw [hraw]; rfl
    rw [hg2, hg3]
    have htm : trueMatches raw (l0 + 256 * l1) 0 =
        0 :: trueMatchesAux raw (l0 + 256 * l1) (rest.length + 3) (0 + 2 + (l0 + 256 * l1)) := by
      unfold trueMatches
      rw [hraw_len]
      show trueMatchesAux raw (l0 + 256 * l1) (rest.length + 3 + 1) 0 = _
      rw [trueMatchesAux_succ]
      rw [if_pos (by rw [hraw_len]; omega), if_pos hs0]
    rw [htm]
    rw [List.filter_cons]
    have htail : (trueMatchesAux raw (l0 + 256 * l1) (rest.length + 3)
        (0 + 2 + (l0 + 256 * l1))).filter (fun q => q == 0) = [] := by
      rw [List.filter_eq_nil_iff]
      intro q hq
      have := trueMatchesAux_ge raw (l0 + 256 * l1) (rest.length + 3) _ q hq
      simp only [beq_iff_eq]
      omega
    simp [htail]
  · intro h
    unfold pd0Sieve
    rw [hout]
    show ((trueMatches raw (raw.getD (0 + 2) 0 + 256 * raw.getD (0 + 3) 0) 0).filter
        (fun q => q == 0)).map
        (fun q => (q, q + 2 + (raw.getD (0 + 2) 0 + 256 * raw.getD (0 + 3) 0))) ++ [] = []
    have hg2 : raw.getD (0 + 2) 0 = l0 := by rw [hraw]; rfl
    have hg3 : raw.getD (0 + 3) 0 = l1 := by rw [hraw]; rfl
    rw [hg2, hg3]
    have htm : trueMatches raw (l0 + 256 * l1) 0 = [] := by
      unfold trueMatches
      rw [hraw_len]
      show trueMatchesAux raw (l0 + 256 * l1) (rest.length + 3 + 1) 0 = []
      rw [trueMatchesAux_succ]
      rw [if_neg (by rw [hraw_len]; omega)]
    rw [htm]
    rfl

/-- C1 counterexample: for the buffer `7f 7f 04 00 | 01 02 03 04 | 09 09`
(sync, little-endian length L = 4, four payload bytes, two noise bytes)
the sieve reports the single candidate `(0, 6)` — spanning `2 + L = 6`
bytes, not `2 + 2 + L = 8` as the claim states; and for the truncated
buffer `7f 7f 04 00 | 01 02` (only 2 < L payload bytes after the length
field) the sieve still reports a candidate instead of none. -/
theorem c1_counterexample :
    pd0Sieve [0x7f, 0x7f, 4, 0, 1, 2, 3, 4, 9, 9] = [(0, 6)] ∧
    pd0Sieve [0x7f, 0x7f, 4, 0, 1, 2, 3, 4, 9, 9] ≠ [(0, 8)] ∧
    pd0Sieve [0x7f, 0x7f, 4, 0, 1, 2] = [(0, 6)] := by
  refine ⟨by decide, by decide, by decide⟩

/-- Witness for `c1_pd0_framing` at concrete inputs: a complete frame
with L = 4 and a truncated one with L = 9. -/
theorem c1_pd0_framing_witness :
    pd0Sieve [0x7f, 0x7f, 4, 0, 1, 2] = [(0, 6)] ∧
    pd0Sieve [0x7f, 0x7f, 9, 0] = [] := by
  constructor
  · exact (c1_pd0_framing 4 0 [1, 2] (by decide)).1 (by decide)
  · exact (c1_pd0_framing 9 0 [] (by decide)).2 (by decide)

/-!
ASCII-hex helpers shared by the SAMI2-PCO2 driver embedding
(mi/instrument/sunburst/sami2_pco2/ooicore/driver.py).

The SAMI records are ASCII strings of hex digits; the regexes use the
character class `[0-9A-Fa-f]` and the decode lambdas use Python's
`int(s, 16)`.
-/

theorem hexStrVal_append_singleton (s : List Char) (c : Char) :
    hexStrVal (s ++ [c]) = 16 * hexStrVal s + hexDigitVal c := by
  unfold hexStrVal
  rw [List.foldl_append]
  rfl

theorem hexDigitVal_toHexDigit (d : Nat) (h : d < 16) :
    hexDigitVal (toHexDigit d) = d := by
  interval_cases d <;> decide

theorem hexStrVal_natToHexCore (n : Nat) : hexStrVal (natToHexCore n) = n := by
  induction n using Nat.strong_induction_on with
  | _ n ih =>
    by_cases h : n = 0
    · subst h
      rw [natToHexCore, dif_pos rfl]
      rfl
    · rw [natToHexCore, dif_neg h, hexStrVal_append_singleton,
        ih (n / 16) (Nat.div_lt_self (Nat.pos_of_ne_zero h) (by omega)),
        hexDigitVal_toHexDigit (n % 16) (Nat.mod_lt _ (by omega))]
      omega

theorem hexStrVal_replicate_zero_append (k : Nat) (s : List Char) :
    hexStrVal (List.replicate k '0' ++ s) = hexStrVal s := by
  induction k with
  | zero => rfl
  | succ m ih =>
    rw [List.replicate_succ, List.cons_append]
    unfold hexStrVal at *
    rw [List.foldl_cons]
    simpa [hexDigitVal] using ih

theorem hexStrVal_intToHexString (v w : Nat) :
    hexStrVal (intToHexString v w) = v := by
  unfold intToHexString zfill
  rw [hexStrVal_replicate_zero_append]
  unfold natToHex
  by_cases h : v = 0
  · subst h; rfl
  · rw [if_neg h]
    exact hexStrVal_natToHexCore v

/-!
Regex embedding for the SAMI2-PCO2 driver. The driver's record regexes
are sequences of fixed-width `[0-9A-Fa-f]{k}` capture groups, possibly
preceded by a literal `*` and always terminated by `NEWLINE`; since all
groups have fixed widths, a match-at-start (Python `re.match`) of such a
pattern is equivalent to slicing the input at the cumulative offsets and
checking each slice, with any trailing characters ignored.
-/

theorem samiSampleLoop_keys (g : Nat → List Char) :
    ∀ ks grp, (samiSampleLoop g ks grp).map Prod.fst = ks := by
  intro ks
  induction ks with
  | nil => intro grp; rfl
  | cons k ks ih =>
    intro grp
    by_cases hk : k = SKey.light_measurements
    · simp [samiSampleLoop, hk, ih]
    · simp [samiSampleLoop, hk, ih]

/-- C6: `Pco2wSamiSampleDataParticle._build_parsed_values` fails — with a
`SampleException` carrying the raw data and producing no particle — if
and only if `SAMI_SAMPLE_REGEX_MATCHER` does not match the input; on a
match it returns a result carrying a value for every one of the eight
declared particle keys, in declaration order, and raises no error. -/
theorem c6_sami_sample_decode (s : List Char) :
    (pco2wSamiSampleBuild s = Except.error s ↔ samiSampleMatch s = none) ∧
    ((samiSampleMatch s).isSome →
      ∃ r, pco2wSamiSampleBuild s = Except.ok r ∧
        r.map Prod.fst = pco2wSamiSampleKeys) := by
  constructor
  · constructor
    · intro he
      cases hm : samiSampleMatch s with
      | none => rfl
      | some gs =>
        unfold pco2wSamiSampleBuild at he
        rw [hm] at he
        exact absurd he (by simp)
    · intro hm
      unfold pco2wSamiSampleBuild
      rw [hm]
  · intro h
    cases hm : samiSampleMatch s with
    | none => rw [hm] at h; exact absurd h (by simp)
    | some gs =>
      refine ⟨samiSampleLoop (fun i => gs.getD (i - 1) []) pco2wSamiSampleKeys 1, ?_,
        samiSampleLoop_keys _ _ _⟩
      unfold pco2wSamiSampleBuild
      rw [hm]

/-- Witness for `c6_sami_sample_decode`: a syntactically valid SAMI
measurement record (type `04`, all other fields zero) decodes to a full
particle, and a junk input fails carrying the raw data. -/
theorem c6_sami_sample_decode_witness :
    (∃ r, pco2wSamiSampleBuild
        ('*' :: ("542704".data ++ List.replicate 74 '0' ++ [NEWLINE])) = Except.ok r ∧
      r.map Prod.fst = pco2wSamiSampleKeys) ∧
    pco2wSamiSampleBuild ['x'] = Except.error ['x'] := by
  constructor
  · exact (c6_sami_sample_decode _).2 (by decide)
  · exact ((c6_sami_sample_decode ['x']).1).2 (by decide)

theorem bne_zero_land_one_shiftLeft (x i : Nat) :
    ((x &&& (1 <<< i)) != 0) = x.testBit i := by
  rw [Nat.one_shiftLeft, Nat.and_two_pow]
  cases h : x.testBit i
  · simp
  · simp

/-- C8: in the configuration decode loop the first three
global-configuration flag keys (`use_baud_rate_57600`,
`send_record_type`, `send_live_records`) consume bit indices 0, 1 and 2
of the global-configuration byte (group 20) in declaration order, and
the fourth (`extend_global_config`) consumes bit index 7, the reserved
bit indices 3–6 being skipped by the static jump `if glbl_index == 3:
glbl_index = 7` — for every possible match, i.e. every group
assignment `g`. -/
theorem c8_global_config_bits (g : Nat → List Char) :
    (configLoop g pco2wConfigKeys 1 0 0 0).lookup CKey.use_baud_rate_57600
        = some (PVal.flag ((hexStrVal (g 20)).testBit 0)) ∧
    (configLoop g pco2wConfigKeys 1 0 0 0).lookup CKey.send_record_type
        = some (PVal.flag ((hexStrVal (g 20)).testBit 1)) ∧
    (configLoop g pco2wConfigKeys 1 0 0 0).lookup CKey.send_live_records
        = some (PVal.flag ((hexStrVal (g 20)).testBit 2)) ∧
    (configLoop g pco2wConfigKeys 1 0 0 0).lookup CKey.extend_global_config
        = some (PVal.flag ((hexStrVal (g 20)).testBit 7)) := by
  refine ⟨?_, ?_, ?_, ?_⟩ <;> rw [← bne_zero_land_one_shiftLeft] <;> rfl

theorem c3_mode_byte_is_0A :
    (configMatch configLitChars).map (fun gs => hexStrVal (gs.getD 3 [])) = some 0x0A ∧
    (configMatch configLitChars).map (fun gs => hexStrVal (gs.getD 19 [])) = some 0x07 := by
  constructor
  · decide
  · decide

/-- C3 counterexample: in the literal configuration string the
mode-bits byte (group 4) is `0A`, not `07` (the byte `07` is the
global-configuration byte, group 20, see `c3_mode_byte_is_0A`), so bit
index 0 of the mode bits decodes `False`, refuting the claim that mode
bits 0 through 2 decode `True`. -/
theorem c3_counterexample :
    configLitValue CKey.pmi_sample_schedule = some (PVal.flag false) ∧
    configLitValue CKey.pmi_sample_schedule ≠ some (PVal.flag true) := by
  constructor
  · decide
  · decide

/-- C3 (amended): decoding the configuration chunk built from the
literal hex string (zero- and `F`-padded to the declared record
length) yields `True` for bit indices 0–2 of the
**global-configuration** byte `07` (keys `use_baud_rate_57600`,
`send_record_type`, `send_live_records`) and `False` for its remaining
declared bit (`extend_global_config`, bit 7); the **mode-bits** byte of
this string is `0A`, whose declared bits decode `True` exactly at bit
indices 1 and 3 and `False` elsewhere. -/
theorem c3_config_bit_decode :
    configLitValue CKey.use_baud_rate_57600 = some (PVal.flag true) ∧
    configLitValue CKey.send_record_type = some (PVal.flag true) ∧
    configLitValue CKey.send_live_records = some (PVal.flag true) ∧
    configLitValue CKey.extend_global_config = some (PVal.flag false) ∧
    configLitValue CKey.pmi_sample_schedule = some (PVal.flag false) ∧
    configLitValue CKey.sami_sample_schedule = some (PVal.flag true) ∧
    configLitValue CKey.slot1_follows_sami_schedule = some (PVal.flag false) ∧
    configLitValue CKey.slot1_independent_schedule = some (PVal.flag true) ∧
    configLitValue CKey.slot2_follows_sami_schedule = some (PVal.flag false) ∧
    configLitValue CKey.slot2_independent_schedule = some (PVal.flag false) ∧
    configLitValue CKey.slot3_follows_sami_schedule = some (PVal.flag false) ∧
    configLitValue CKey.slot3_independent_schedule = some (PVal.flag false) := by
  decide

/-- C5: for every parameter descriptor registered in
`Protocol._build_param_dict` — each of declared hex width 2, 6 or 8 —
and every value representable in that width, applying the descriptor's
decode (`int(..., 16)`, i.e. `hexStrVal`) to the output of its encode
(`_int_to_hexstring` at the declared width) returns the value. -/
theorem c5_param_roundtrip (e : ParamEntry) (he : e ∈ pco2wParamDict)
    (v : Nat) (hv : v < 16 ^ e.width) :
    (e.width = 2 ∨ e.width = 6 ∨ e.width = 8) ∧
    hexStrVal (intToHexString v e.width) = v := by
  constructor
  · have hall : ∀ x ∈ pco2wParamDict, x.width = 2 ∨ x.width = 6 ∨ x.width = 8 := by decide
    exact hall e he
  · exact hexStrVal_intToHexString v e.width

/-- Witness for `c5_param_roundtrip`: the `LAUNCH_TIME` descriptor
(width 8) round-trips its default-style value `0xCEE90B00`. -/
theorem c5_param_roundtrip_witness :
    hexStrVal (intToHexString 0xCEE90B00 8) = 0xCEE90B00 :=
  (c5_param_roundtrip ⟨"LAUNCH_TIME", 1, 8, false, true, PVisibility.READ_ONLY, 0⟩
    (by decide) 0xCEE90B00 (by decide)).2

/-- C9: every one of the thirty descriptors registered by
`Protocol._build_param_dict` of the SAMI2-PCO2 driver has visibility
`READ_ONLY`, `direct_access=True` and `startup_param=False`; hence the
driver registers no read-write parameter and encoding a set command for
any registered parameter fails as read-only. -/
theorem c9_all_params_read_only :
    (∀ e ∈ pco2wParamDict,
      e.visibility = PVisibility.READ_ONLY ∧ e.directAccess = true ∧ e.startupParam = false) ∧
    (∀ name v, (pco2wParamDict.find? (fun e => e.name == name)).isSome →
      encode_set pco2wParamDict name v = Except.error SetCmdError.readOnlyParameter) := by
  constructor
  · decide
  · intro name v h
    unfold encode_set
    cases hf : pco2wParamDict.find? (fun e => e.name == name) with
    | none => rw [hf] at h; exact absurd h (by simp)
    | some e =>
      have hmem := List.mem_of_find?_eq_some hf
      have hro : e.visibility = PVisibility.READ_ONLY := by
        have hall : ∀ x ∈ pco2wParamDict, x.visibility = PVisibility.READ_ONLY := by decide
        exact hall e hmem
      simp [hro]

/-- Witness for `c9_all_params_read_only`: a set of the registered
parameter `PUMP_PULSE` fails as read-only. -/
theorem c9_all_params_read_only_witness :
    encode_set pco2wParamDict "PUMP_PULSE" 0x10 = Except.error SetCmdError.readOnlyParameter :=
  c9_all_params_read_only.2 "PUMP_PULSE" 0x10 (by decide)

/-- C2 counterexample: with the machine in `SCHEDULED_SAMPLE` (entered,
say, from prior operational state `AUTOSAMPLE`), processing `SUCCESS`
leaves the machine in `SCHEDULED_SAMPLE` — the handler returns a null
`next_state`, so under the on_event rule no transition occurs — and
`SCHEDULED_SAMPLE` is not the prior operational state `AUTOSAMPLE`
claimed by the spec. -/
theorem c2_counterexample :
    sami_on_event SamiState.SCHEDULED_SAMPLE SamiEvent.SUCCESS
        = some SamiState.SCHEDULED_SAMPLE ∧
    some SamiState.SCHEDULED_SAMPLE ≠ some SamiState.AUTOSAMPLE := by
  constructor
  · rfl
  · decide

/-- C2 (amended): whenever the machine is in a sampling sub-state
(`SCHEDULED_SAMPLE` or `POLLED_SAMPLE`) and a `SUCCESS` or `TIMEOUT`
event is processed, the machine stays in that same sampling sub-state:
both registered handlers return a null `next_state`, so the current
state is not updated; the machine does not return to the prior
operational state. -/
theorem c2_sample_handlers_keep_state (ev : SamiEvent) :
    sami_on_event SamiState.SCHEDULED_SAMPLE ev = some SamiState.SCHEDULED_SAMPLE ∧
    sami_on_event SamiState.POLLED_SAMPLE ev = some SamiState.POLLED_SAMPLE := by
  cases ev
  · exact ⟨rfl, rfl⟩
  · exact ⟨rfl, rfl⟩

/-- C4: with the FSM in `COMMAND` and recovery enabled, a chunk that
decodes to a PD0 ensemble (a particle type only produced during
autonomous sampling) makes `_got_chunk` itself inject the synthetic
`RECOVER_AUTOSAMPLE` event — no externally raised command event appears
in `raised` — and the machine transitions away from `COMMAND` (to
`AUTOSAMPLE`), whatever the other matchers did. -/
theorem c4_desync_recovery (matchCal matchCfg : Bool) :
    (got_chunk_150 matchCal true matchCfg false WState.COMMAND).finalState
        = WState.AUTOSAMPLE ∧
    (got_chunk_150 matchCal true matchCfg false WState.COMMAND).finalState
        ≠ WState.COMMAND ∧
    (got_chunk_150 matchCal true matchCfg false WState.COMMAND).raised
        = [WEvent.RECOVER_AUTOSAMPLE] := by
  cases matchCal <;> cases matchCfg <;> exact ⟨rfl, by decide, rfl⟩

/-- C10: in the 150 kHz driver, for every chunk matching the PD0 regex,
when autosample recovery is enabled (`disable_autosample_recover` is
not `True`) `_got_chunk` returns right after the PD0 branch — raising
`RECOVER_AUTOSAMPLE` exactly when the current state is `COMMAND` — and
never extracts a system-configuration particle from that chunk, even
when the system-configuration matcher would match. -/
theorem c10_pd0_early_return (matchCal matchCfg : Bool) (st : WState) :
    WParticle.sysConfig ∉ (got_chunk_150 matchCal true matchCfg false st).extracted ∧
    (got_chunk_150 matchCal true matchCfg false st).raised
      = (if st = WState.COMMAND then [WEvent.RECOVER_AUTOSAMPLE] else []) := by
  cases matchCal <;> cases matchCfg <;> cases st <;> exact ⟨by decide, by decide⟩

theorem chunkBetter_eq_or (a b : Nat × Nat) :
    chunkBetter a b = a ∨ chunkBetter a b = b := by
  unfold chunkBetter
  split
  · right; rfl
  · left; rfl

theorem foldl_chunkBetter_mem (l : List (Nat × Nat)) :
    ∀ a, l.foldl chunkBetter a = a ∨ l.foldl chunkBetter a ∈ l := by
  induction l with
  | nil => intro a; left; rfl
  | cons b l ih =>
    intro a
    rw [List.foldl_cons]
    rcases ih (chunkBetter a b) with h | h
    · rcases chunkBetter_eq_or a b with hab | hab
      · left; rw [h, hab]
      · right; rw [h, hab]; exact List.mem_cons_self b l
    · right; exact List.mem_cons_of_mem b h

theorem foldl_chunkBetter_min (l : List (Nat × Nat)) :
    ∀ a, (l.foldl chunkBetter a).1 ≤ a.1 ∧
      ∀ d ∈ l, (l.foldl chunkBetter a).1 ≤ d.1 := by
  induction l with
  | nil => intro a; exact ⟨le_refl _, by simp⟩
  | cons b l ih =>
    intro a
    rw [List.foldl_cons]
    have hab : (chunkBetter a b).1 ≤ a.1 ∧ (chunkBetter a b).1 ≤ b.1 := by
      unfold chunkBetter
      split
      · rename_i hcond
        rcases hcond with hlt | ⟨heq, _⟩
        · exact ⟨by omega, le_refl _⟩
        · exact ⟨by omega, le_refl _⟩
      · rename_i hcond
        push_neg at hcond
        exact ⟨le_refl _, hcond.1⟩
    obtain ⟨h1, h2⟩ := ih (chunkBetter a b)
    refine ⟨le_trans h1 hab.1, ?_⟩
    intro d hd
    rcases List.mem_cons.mp hd with rfl | hd
    · exact le_trans h1 hab.2
    · exact h2 d hd

theorem earliestChunk_mem (cands : List (Nat × Nat)) (c : Nat × Nat)
    (h : earliestChunk cands = some c) : c ∈ cands := by
  cases cands with
  | nil => simp [earliestChunk] at h
  | cons a rest =>
    unfold earliestChunk at h
    have hc : rest.foldl chunkBetter a = c := by injection h
    rcases foldl_chunkBetter_mem rest a with h' | h'
    · have hca : c = a := by rw [← hc, h']
      rw [hca]; exact List.mem_cons_self a rest
    · rw [hc] at h'; exact List.mem_cons_of_mem a h'

theorem earliestChunk_min (cands : List (Nat × Nat)) (c : Nat × Nat)
    (h : earliestChunk cands = some c) : ∀ d ∈ cands, c.1 ≤ d.1 := by
  cases cands with
  | nil => simp [earliestChunk] at h
  | cons a rest =>
    unfold earliestChunk at h
    have hc : rest.foldl chunkBetter a = c := by injection h
    obtain ⟨h1, h2⟩ := foldl_chunkBetter_min rest a
    rw [hc] at h1 h2
    intro d hd
    rcases List.mem_cons.mp hd with rfl | hd
    · exact h1
    · exact h2 d hd

theorem chunkStreamAux_succ (fuel : Nat) (cands : List (Nat × Nat)) :
    chunkStreamAux (fuel + 1) cands =
      match earliestChunk cands with
      | none => []
      | some c =>
        c :: chunkStreamAux fuel
          (cands.filter (fun d => !(d == c) && !(overlapsSpan c d))) := rfl

theorem chunkStreamAux_subset :
    ∀ fuel cands x, x ∈ chunkStreamAux fuel cands → x ∈ cands := by
  intro fuel
  induction fuel with
  | zero => intro cands x hx; simp [chunkStreamAux] at hx
  | succ n ih =>
    intro cands x hx
    rw [chunkStreamAux_succ] at hx
    cases he : earliestChunk cands with
    | none => rw [he] at hx; simp at hx
    | some c =>
      rw [he] at hx
      rcases List.mem_cons.mp hx with rfl | hx
      · exact earliestChunk_mem cands x he
      · exact (List.mem_filter.mp (ih _ x hx)).1

theorem chunkStreamAux_chain :
    ∀ fuel cands, List.Chain' (fun a b : Nat × Nat => a.1 ≤ b.1)
      (chunkStreamAux fuel cands) := by
  intro fuel
  induction fuel with
  | zero => intro cands; exact List.chain'_nil
  | succ n ih =>
    intro cands
    rw [chunkStreamAux_succ]
    cases he : earliestChunk cands with
    | none => exact List.chain'_nil
    | some c =>
      refine List.chain'_cons'.mpr ⟨?_, ih _⟩
      intro y hy
      have hy' : y ∈ chunkStreamAux n
          (cands.filter (fun d => !(d == c) && !(overlapsSpan c d))) :=
        List.mem_of_mem_head? hy
      have : y ∈ cands := (List.mem_filter.mp (chunkStreamAux_subset n _ y hy')).1
      exact earliestChunk_min cands c he y this

/-- C7: across successive `next_chunk()` calls the yielded chunks are
in non-decreasing start-offset order, for every pooled candidate list —
in particular for the per-matcher-concatenated, not globally sorted,
output of the drivers' sieve functions (instantiated here on the PD0
sieve branch) — regardless of which recognizer found each chunk. -/
theorem c7_chunk_order :
    (∀ cands : List (Nat × Nat),
      List.Chain' (fun a b : Nat × Nat => a.1 ≤ b.1) (chunkStream cands)) ∧
    (∀ raw : List Nat,
      List.Chain' (fun a b : Nat × Nat => a.1 ≤ b.1) (chunkStream (pd0Sieve raw))) := by
  constructor
  · intro cands; exact chunkStreamAux_chain _ _
  · intro raw; exact chunkStreamAux_chain _ _
